import Mathlib

/-!
Verification of the multi-source fallback core ("Source Router") of the
tron_mcp_server repository, as a shallow embedding in Lean 4.

The embedding follows the JavaScript source:
* checkNodeAvailability and executeWithFallback  — src/index.js
* getFallbackEnergyEstimate and the energy-estimation candidate thunks — src/index.js
* AccountModule.getBalance and sendTrx — modules (account module file)
* EnergyEstimator.estimateContractEnergy address validation — energy estimator file

Asynchronous thunks are modelled by their outcomes: a candidate in the
per-operation map is an optional value of type Except String A (absent thunk,
thrown error message, or returned value).  The shared mutable field
this.nodeAvailable becomes an explicit RouterState threaded through calls.
-/

set_option autoImplicit false

namespace TronMcp

/-- Substring relation on strings: the pattern occurs contiguously in the text,
modelling the JavaScript String.prototype.includes test. -/
def SubstrIn (pat s : String) : Prop := pat.data <:+: s.data

instance (pat s : String) : Decidable (SubstrIn pat s) :=
  List.decidableInfix pat.data s.data

/-- Boolean form of the substring test, used inside executable definitions. -/
def strContains (s pat : String) : Bool := decide (SubstrIn pat s)

/-- JavaScript Array.prototype.join with separator ", ", as used on the
recorded per-backend failure messages. -/
def joinComma : List String → String
  | [] => ""
  | [x] => x
  | x :: y :: xs => x ++ ", " ++ joinComma (y :: xs)

/-- Process-wide router state: the this.nodeAvailable field of the server
(null = not tested, true = available, false = unavailable). -/
structure RouterState where
  nodeAvailable : Option Bool
deriving Repr, DecidableEq

/-- Outcome of the availability probe (tronWeb.trx.getCurrentBlock with a
measured response time), supplied as an input to the model. -/
inductive ProbeOutcome where
  | ok (responseTimeMs : Nat)
  | err (msg : String)
deriving Repr, DecidableEq

/-- checkNodeAvailability from src/index.js: returns the cached flag when it
is set; otherwise probes and caches (response below 5000 ms counts as
available; a thrown probe error caches false). -/
def checkNodeAvailability (s : RouterState) (probe : ProbeOutcome) : Bool × RouterState :=
  match s.nodeAvailable with
  | some b => (b, s)
  | none =>
    match probe with
    | .ok t =>
      let avail := decide (t < 5000)
      (avail, { nodeAvailable := some avail })
    | .err _ => (false, { nodeAvailable := some false })

/-- Per-operation candidate map { tronweb, trongrid, tronscan }: each slot is
absent or carries the outcome its thunk would produce when invoked. -/
structure Operation (α : Type) where
  tronweb : Option (Except String α)
  trongrid : Option (Except String α)
  tronscan : Option (Except String α)

/-- Result of one executeWithFallback call: the delivered value tagged with its
source (or the thrown error message), the updated router state, the recorded
failure messages (the sources array), and which candidate slots were attempted. -/
structure ExecResult (α : Type) where
  result : Except String (α × String)
  state : RouterState
  sources : List String
  tronwebAttempted : Bool
  trongridAttempted : Bool
  tronscanAttempted : Bool

/-- Outcome of the expression await operation.tronweb(): when the map supplies
no tronweb thunk, calling the undefined property raises a TypeError, which the
surrounding try treats like any other primary failure. -/
def tronwebCallOutcome {α : Type} (op : Operation α) : Except String α :=
  match op.tronweb with
  | some r => r
  | none => .error "operation.tronweb is not a function"

/-- Branch of executeWithFallback taken when the node is known unavailable:
skip the local node, try trongrid then tronscan. -/
def skipNodeBranch {α : Type} (s1 : RouterState) (op : Operation α)
    (operationName : String) : ExecResult α :=
  match op.trongrid with
  | some (.ok v) =>
    { result := .ok (v, "trongrid_api"), state := s1, sources := [],
      tronwebAttempted := false, trongridAttempted := true, tronscanAttempted := false }
  | some (.error m) =>
    let sources := ["TronGrid: " ++ m]
    match op.tronscan with
    | some (.ok v) =>
      { result := .ok (v, "tronscan_api"), state := s1, sources := sources,
        tronwebAttempted := false, trongridAttempted := true, tronscanAttempted := true }
    | some (.error m2) =>
      let sources2 := sources ++ ["TronScan: " ++ m2]
      { result := .error (operationName ++ " failed: " ++
          ("All API sources failed for " ++ operationName ++ ": " ++ joinComma sources2)),
        state := s1, sources := sources2,
        tronwebAttempted := false, trongridAttempted := true, tronscanAttempted := true }
    | none =>
      { result := .error (operationName ++ " failed: " ++
          ("No fallback sources available for " ++ operationName)),
        state := s1, sources := sources,
        tronwebAttempted := false, trongridAttempted := true, tronscanAttempted := false }
  | none =>
    match op.tronscan with
    | some (.ok v) =>
      { result := .ok (v, "tronscan_api"), state := s1, sources := [],
        tronwebAttempted := false, trongridAttempted := false, tronscanAttempted := true }
    | some (.error m2) =>
      let sources2 := ["TronScan: " ++ m2]
      { result := .error (operationName ++ " failed: " ++
          ("All API sources failed for " ++ operationName ++ ": " ++ joinComma sources2)),
        state := s1, sources := sources2,
        tronwebAttempted := false, trongridAttempted := false, tronscanAttempted := true }
    | none =>
      { result := .error (operationName ++ " failed: " ++
          ("No fallback sources available for " ++ operationName)),
        state := s1, sources := [],
        tronwebAttempted := false, trongridAttempted := false, tronscanAttempted := false }

/-- Branch of executeWithFallback taken when the node is considered available:
attempt the tronweb thunk; on failure record the message, latch the
availability flag to false and fall down to trongrid then tronscan; with no
tronscan candidate the original node error is rethrown. -/
def tryNodeBranch {α : Type} (s1 : RouterState) (op : Operation α)
    (operationName : String) : ExecResult α :=
  match tronwebCallOutcome op with
  | .ok v =>
    { result := .ok (v, "tronweb_node"), state := s1, sources := [],
      tronwebAttempted := true, trongridAttempted := false, tronscanAttempted := false }
  | .error m =>
    let sources := ["TronWeb: " ++ m]
    let s2 : RouterState := { nodeAvailable := some false }
    match op.trongrid with
    | some (.ok v) =>
      { result := .ok (v, "trongrid_api"), state := s2, sources := sources,
        tronwebAttempted := true, trongridAttempted := true, tronscanAttempted := false }
    | some (.error m2) =>
      let sources2 := sources ++ ["TronGrid: " ++ m2]
      match op.tronscan with
      | some (.ok v) =>
        { result := .ok (v, "tronscan_api"), state := s2, sources := sources2,
          tronwebAttempted := true, trongridAttempted := true, tronscanAttempted := true }
      | some (.error m3) =>
        let sources3 := sources2 ++ ["TronScan: " ++ m3]
        { result := .error (operationName ++ " failed: " ++
            ("All sources failed for " ++ operationName ++ ": " ++ joinComma sources3)),
          state := s2, sources := sources3,
          tronwebAttempted := true, trongridAttempted := true, tronscanAttempted := true }
      | none =>
        { result := .error (operationName ++ " failed: " ++ m),
          state := s2, sources := sources2,
          tronwebAttempted := true, trongridAttempted := true, tronscanAttempted := false }
    | none =>
      match op.tronscan with
      | some (.ok v) =>
        { result := .ok (v, "tronscan_api"), state := s2, sources := sources,
          tronwebAttempted := true, trongridAttempted := false, tronscanAttempted := true }
      | some (.error m3) =>
        let sources3 := sources ++ ["TronScan: " ++ m3]
        { result := .error (operationName ++ " failed: " ++
            ("All sources failed for " ++ operationName ++ ": " ++ joinComma sources3)),
          state := s2, sources := sources3,
          tronwebAttempted := true, trongridAttempted := false, tronscanAttempted := true }
      | none =>
        { result := .error (operationName ++ " failed: " ++ m),
          state := s2, sources := sources,
          tronwebAttempted := true, trongridAttempted := false, tronscanAttempted := false }

/-- executeWithFallback from src/index.js: check node availability, then run
the candidates in the fixed order tronweb, trongrid, tronscan; every thrown
error is wrapped at the end as an McpError with message
"operationName failed: innerMessage". -/
def executeWithFallback {α : Type} (s : RouterState) (probe : ProbeOutcome)
    (op : Operation α) (operationName : String) : ExecResult α :=
  let c := checkNodeAvailability s probe
  if c.1 = false then skipNodeBranch c.2 op operationName
  else tryNodeBranch c.2 op operationName

/-- Sequence of executeWithFallback calls in one process, threading the router
state from call to call. -/
def runCalls {α : Type} (s : RouterState) :
    List (ProbeOutcome × Operation α × String) → List (ExecResult α)
  | [] => []
  | (probe, op, name) :: rest =>
    let r := executeWithFallback s probe op name
    r :: runCalls r.state rest

/-- Address of the well-known USDT TRC20 token contract, hardcoded in the
source heuristics. -/
def USDT_CONTRACT : String := "TR7NHqjeKQxGTCi8q8ZY4pL8otSzgjLj6t"

/-- Hardcoded recipient known to hold no USDT (new address, double energy). -/
def NEW_USDT_ADDRESS : String := "TSLbRevWFn3hktZmfDrzRbDLfEA6RQjNwK"

/-- Hardcoded recipient known to hold USDT (existing address, standard energy). -/
def EXISTING_USDT_ADDRESS : String := "TAHT3rrriD23a6AXmaM2YJRRvTYusKGVwD"

/-- JavaScript String.prototype.toLowerCase as used on function names:
per-character lowercasing. -/
def toLowerStr (s : String) : String := ⟨s.data.map Char.toLower⟩

/-- USDT-specific early returns of getFallbackEnergyEstimate; none means the
source falls through to the generic pattern section. -/
def usdtEstimate (functionLower : String) (toAddress : Option String) : Option Nat :=
  if functionLower = "transfer" then
    some (match toAddress with
      | some a =>
        if a = NEW_USDT_ADDRESS then 28000
        else if a = EXISTING_USDT_ADDRESS then 13940
        else 13940
      | none => 13940)
  else if functionLower = "approve" then some 13180
  else if functionLower = "transferfrom" then some 18190
  else if functionLower = "balanceof" then some 680
  else none

/-- Generic substring-pattern section of getFallbackEnergyEstimate; none means
the source falls through to the parameter-count default. -/
def patternEstimate (functionLower : String) : Option Nat :=
  if strContains functionLower "transfer" || strContains functionLower "send" then some 14010
  else if strContains functionLower "approve" || strContains functionLower "allowance" then some 10000
  else if strContains functionLower "swap" || strContains functionLower "exchange" then some 50000
  else if strContains functionLower "mint" || strContains functionLower "burn" then some 30000
  else if strContains functionLower "view" || strContains functionLower "get"
       || strContains functionLower "balance" then some 1000
  else none

/-- getFallbackEnergyEstimate from src/index.js: USDT address table first, then
function-name substring patterns, then 20000 plus 5000 per parameter. -/
def getFallbackEnergyEstimate (functionName : String) (parameters : List String)
    (contractAddress : String) (toAddress : Option String) : Nat :=
  let functionLower := toLowerStr functionName
  match (if contractAddress = USDT_CONTRACT then usdtEstimate functionLower toAddress else none) with
  | some e => e
  | none =>
    match patternEstimate functionLower with
    | some e => e
    | none => 20000 + parameters.length * 5000

/-- Estimation metadata record nested under estimations in the
estimateContractEnergy responses. -/
structure EnergyEstimation where
  energy : Nat
  method : String
  accuracy : String
  energyCalculation : String
deriving Repr, DecidableEq

/-- Response shape of the estimateContractEnergy candidates: estimationKey is
the key under estimations ("trongrid" or "fallback"). -/
structure EnergyResult where
  contractAddress : String
  functionName : String
  estimationKey : String
  estimation : EnergyEstimation
  recommended : Nat
deriving Repr, DecidableEq

/-- Recipient shown in the response: forced to a fixed probe address for the
USDT transfer special case, otherwise the first parameter when present. -/
def displayToAddress (contractAddress functionName : String) (parameters : List String)
    (forced : String) : Option String :=
  if contractAddress = USDT_CONTRACT ∧ functionName = "transfer" then some forced
  else parameters.head?

/-- Trongrid candidate thunk of estimateContractEnergy (src/index.js).
usdtDualBranch abstracts the outcome of the long USDT-transfer dual-probe
branch, which issues its own network requests and is taken only when the
contract is the USDT contract and the function is transfer; apiOutcome is the
outcome of the triggerconstantcontract call, carrying the optional
energy_used field on success. -/
def trongridEstimateThunk (contractAddress functionName : String) (parameters : List String)
    (usdtDualBranch : Except String EnergyResult)
    (apiOutcome : Except String (Option Nat)) : Except String EnergyResult :=
  if contractAddress = USDT_CONTRACT ∧ functionName = "transfer" then usdtDualBranch
  else
    match apiOutcome with
    | .ok eo =>
      let energyUsed := eo.getD 0
      let dta := displayToAddress contractAddress functionName parameters NEW_USDT_ADDRESS
      let finalEnergy := if energyUsed > 0 then energyUsed
        else getFallbackEnergyEstimate functionName parameters contractAddress dta
      .ok { contractAddress := contractAddress, functionName := functionName,
            estimationKey := "trongrid",
            estimation :=
              { energy := finalEnergy, method := "triggerconstantcontract",
                accuracy := if energyUsed > 0 then "high" else "medium",
                energyCalculation := if energyUsed > 0 then "api_response"
                  else "fallback_with_address_check" },
            recommended := finalEnergy }
    | .error _ =>
      let dta := displayToAddress contractAddress functionName parameters NEW_USDT_ADDRESS
      let energy := getFallbackEnergyEstimate functionName parameters contractAddress dta
      .ok { contractAddress := contractAddress, functionName := functionName,
            estimationKey := "fallback",
            estimation :=
              { energy := energy, method := "predefined",
                accuracy := "medium", energyCalculation := "fallback_with_address_check" },
            recommended := energy }

/-- Tronscan candidate thunk of estimateContractEnergy: always answers with the
predefined heuristic value, never throws. -/
def tronscanEstimateThunk (contractAddress functionName : String)
    (parameters : List String) : Except String EnergyResult :=
  let dta := displayToAddress contractAddress functionName parameters EXISTING_USDT_ADDRESS
  let energy := getFallbackEnergyEstimate functionName parameters contractAddress dta
  .ok { contractAddress := contractAddress, functionName := functionName,
        estimationKey := "fallback",
        estimation :=
          { energy := energy, method := "predefined",
            accuracy := "medium", energyCalculation := "fallback_with_address_check" },
        recommended := energy }

/-- Candidate map that estimateContractEnergy passes to executeWithFallback:
the tronweb slot is the EnergyEstimator call, whose outcome is an input. -/
def estimateEnergyOperation (contractAddress functionName : String) (parameters : List String)
    (estimatorOutcome : Except String EnergyResult)
    (usdtDualBranch : Except String EnergyResult)
    (apiOutcome : Except String (Option Nat)) : Operation EnergyResult :=
  { tronweb := some estimatorOutcome,
    trongrid := some (trongridEstimateThunk contractAddress functionName parameters
      usdtDualBranch apiOutcome),
    tronscan := some (tronscanEstimateThunk contractAddress functionName parameters) }

/-- Candidate map built by contractCall (src/index.js): the tronscan candidate
is supplied and unconditionally throws, TronScan being read-only. -/
def contractCallOperation {α : Type} (tronwebOutcome trongridOutcome : Except String α) :
    Operation α :=
  { tronweb := some tronwebOutcome, trongrid := some trongridOutcome,
    tronscan := some (.error "TronScan API does not support contract calls - read-only API") }

/-- Candidate map built by AccountModule.sendTrx: the tronscan candidate is
supplied and unconditionally throws, TronScan being read-only. -/
def sendTrxOperation {α : Type} (tronwebOutcome trongridOutcome : Except String α) :
    Operation α :=
  { tronweb := some tronwebOutcome, trongrid := some trongridOutcome,
    tronscan := some (.error "TronScan API does not support transaction broadcasting - read-only API") }

/-- Backend outcomes driving one AccountModule.getBalance call: the raw SUN
integer from the node, or the optional balance field of the account data
returned by the HTTP backends. -/
structure BalanceScenario where
  tronwebOutcome : Except String Nat
  trongridOutcome : Except String (Option Nat)
  tronscanOutcome : Except String (Option Nat)

/-- Normalized balance response of AccountModule.getBalance. -/
structure BalanceResult where
  address : String
  balance : ℚ
  balanceInSun : Nat
  source : String

/-- TronWeb.fromSun library conversion used by the tronweb path of getBalance:
SUN to TRX is division by 1,000,000. -/
def fromSun (sun : Nat) : ℚ := (sun : ℚ) / 1000000

/-- AccountModule.getBalance: nested try/catch cascade tronweb, trongrid,
tronscan; no address validation anywhere.  The second component counts how
many backend candidates were attempted. -/
def getBalance (address : String) (sc : BalanceScenario) :
    Except String BalanceResult × Nat :=
  match sc.tronwebOutcome with
  | .ok sun =>
    (.ok { address := address, balance := fromSun sun, balanceInSun := sun,
           source := "tronweb_node" }, 1)
  | .error m1 =>
    match sc.trongridOutcome with
    | .ok acc =>
      let bal := acc.getD 0
      (.ok { address := address, balance := (bal : ℚ) / 1000000, balanceInSun := bal,
             source := "trongrid_api" }, 2)
    | .error m2 =>
      match sc.tronscanOutcome with
      | .ok acc =>
        let bal := acc.getD 0
        (.ok { address := address, balance := (bal : ℚ) / 1000000, balanceInSun := bal,
               source := "tronscan_api" }, 3)
      | .error m3 =>
        (.error ("Failed to get balance: " ++
           ("All sources failed: " ++ m1 ++ ", " ++ m2 ++ ", " ++ m3)), 3)

/-- Validation prefix of EnergyEstimator.estimateContractEnergy: isAddr is the
result of tronWeb.isAddress(contractAddress); restCalls and restOutcome
summarize the network interactions performed after validation passes.  Every
thrown error is rewrapped by the method's catch as
"Energy estimation failed: message". -/
def estimatorEstimateContractEnergy {α : Type} (isAddr : Bool) (contractAddress : String)
    (restCalls : Nat) (restOutcome : Except String α) : Except String α × Nat :=
  if isAddr then
    (match restOutcome with
     | .ok v => .ok v
     | .error m => .error ("Energy estimation failed: " ++ m), restCalls)
  else
    (.error ("Energy estimation failed: " ++ ("Invalid contract address: " ++ contractAddress)), 0)

/-! ### Helper lemmas about the router model -/

theorem substrIn_appendl (p a b : String) : SubstrIn p (a ++ p ++ b) :=
  ⟨a.data, b.data, by simp [String.data_append]⟩

theorem substrIn_mono_left (p a s : String) (h : SubstrIn p s) : SubstrIn p (a ++ s) := by
  obtain ⟨u, v, huv⟩ := h
  exact ⟨a.data ++ u, v, by rw [String.data_append, ← huv]; simp⟩

theorem substrIn_mono_right (p s b : String) (h : SubstrIn p s) : SubstrIn p (s ++ b) := by
  obtain ⟨u, v, huv⟩ := h
  exact ⟨u, v ++ b.data, by rw [String.data_append, ← huv]; simp⟩

theorem substrIn_refl (p : String) : SubstrIn p p :=
  ⟨[], [], by simp⟩

theorem substrIn_trans (p q r : String) (h1 : SubstrIn p q) (h2 : SubstrIn q r) :
    SubstrIn p r :=
  List.IsInfix.trans h1 h2

theorem substrIn_mem_joinComma (x : String) (l : List String) (h : x ∈ l) :
    SubstrIn x (joinComma l) := by
  induction l with
  | nil => simp at h
  | cons y ys ih =>
    rcases ys with _ | ⟨z, zs⟩
    · simp at h
      rw [h]
      exact substrIn_refl y
    · rcases List.mem_cons.mp h with h | h
      · rw [h]
        show SubstrIn y ((y ++ ", ") ++ joinComma (z :: zs))
        exact substrIn_mono_right _ _ _ (substrIn_mono_right _ _ _ (substrIn_refl y))
      · show SubstrIn x ((y ++ ", ") ++ joinComma (z :: zs))
        exact substrIn_mono_left _ _ _ (ih h)

theorem skipNodeBranch_state {α : Type} (s1 : RouterState) (op : Operation α) (name : String) :
    (skipNodeBranch s1 op name).state = s1 ∧
    (skipNodeBranch s1 op name).tronwebAttempted = false := by
  unfold skipNodeBranch
  rcases hg : op.trongrid with _ | (mg | vg) <;>
    rcases hs : op.tronscan with _ | (ms | vs) <;> simp

theorem tryNodeBranch_err {α : Type} (s1 : RouterState) (op : Operation α) (name : String)
    (m : String) (h : tronwebCallOutcome op = .error m) :
    (tryNodeBranch s1 op name).state = ⟨some false⟩ := by
  unfold tryNodeBranch
  rw [h]
  rcases hg : op.trongrid with _ | (mg | vg) <;>
    rcases hs : op.tronscan with _ | (ms | vs) <;> simp

theorem exec_eq_skip {α : Type} (s : RouterState) (probe : ProbeOutcome)
    (op : Operation α) (name : String) (hc : (checkNodeAvailability s probe).1 = false) :
    executeWithFallback s probe op name =
      skipNodeBranch (checkNodeAvailability s probe).2 op name := by
  unfold executeWithFallback
  simp [hc]

theorem exec_eq_try {α : Type} (s : RouterState) (probe : ProbeOutcome)
    (op : Operation α) (name : String) (hc : (checkNodeAvailability s probe).1 = true) :
    executeWithFallback s probe op name =
      tryNodeBranch (checkNodeAvailability s probe).2 op name := by
  unfold executeWithFallback
  simp [hc]

theorem exec_of_flag_false {α : Type} (s : RouterState) (probe : ProbeOutcome)
    (op : Operation α) (name : String) (h : s.nodeAvailable = some false) :
    executeWithFallback s probe op name = skipNodeBranch s op name := by
  unfold executeWithFallback checkNodeAvailability
  rw [h]
  rfl

theorem exec_flag_false_absorb {α : Type} (s : RouterState) (probe : ProbeOutcome)
    (op : Operation α) (name : String) (h : s.nodeAvailable = some false) :
    (executeWithFallback s probe op name).state.nodeAvailable = some false ∧
    (executeWithFallback s probe op name).tronwebAttempted = false := by
  rw [exec_of_flag_false s probe op name h]
  obtain ⟨h1, h2⟩ := skipNodeBranch_state s op name
  rw [h1, h2]
  exact ⟨h, rfl⟩

theorem exec_attempted_of_avail {α : Type} (s : RouterState) (probe : ProbeOutcome)
    (op : Operation α) (name : String) :
    (executeWithFallback s probe op name).tronwebAttempted = true →
    executeWithFallback s probe op name = tryNodeBranch (checkNodeAvailability s probe).2 op name := by
  unfold executeWithFallback
  by_cases hc : (checkNodeAvailability s probe).1 = false
  · simp only [hc, if_true]
    intro hcontra
    exact absurd hcontra (by rw [(skipNodeBranch_state _ op name).2]; simp)
  · simp [hc]

theorem runCalls_skip {α : Type} (s : RouterState)
    (calls : List (ProbeOutcome × Operation α × String)) (h : s.nodeAvailable = some false) :
    ∀ r ∈ runCalls s calls, r.tronwebAttempted = false := by
  induction calls generalizing s with
  | nil => intro r hr; simp [runCalls] at hr
  | cons c rest ih =>
    intro r hr
    obtain ⟨probe, op, name⟩ := c
    simp only [runCalls, List.mem_cons] at hr
    obtain ⟨h1, h2⟩ := exec_flag_false_absorb s probe op name h
    rcases hr with hr | hr
    · rw [hr]; exact h2
    · exact ih _ h1 r hr

/-! ### Claim theorems -/

/-- C1 (fallback ordering): for any execute call whose candidate map supplies
all three backends, if the primary (tronweb) candidate throws and the gateway
(trongrid) candidate succeeds, the returned result carries the gateway source
tag "trongrid_api" and the explorer (tronscan) candidate is never invoked. -/
theorem fallback_ordering {α : Type} (s : RouterState) (probe : ProbeOutcome)
    (op : Operation α) (name : String) (m : String) (v : α) (x : Except String α)
    (h1 : op.tronweb = some (.error m)) (h2 : op.trongrid = some (.ok v))
    (_hall : op.tronscan = some x) :
    (executeWithFallback s probe op name).result = .ok (v, "trongrid_api") ∧
    (executeWithFallback s probe op name).tronscanAttempted = false := by
  unfold executeWithFallback
  by_cases hc : (checkNodeAvailability s probe).1 = false
  · simp [hc, skipNodeBranch, h2]
  · simp [hc, tryNodeBranch, tronwebCallOutcome, h1, h2]

theorem fallback_ordering_witness :
    (executeWithFallback (RouterState.mk none) (.ok 100)
        (Operation.mk (α := Nat) (some (.error "node down")) (some (.ok 42)) (some (.ok 7)))
        "getBlock").result = .ok (42, "trongrid_api") ∧
    (executeWithFallback (RouterState.mk none) (.ok 100)
        (Operation.mk (α := Nat) (some (.error "node down")) (some (.ok 42)) (some (.ok 7)))
        "getBlock").tronscanAttempted = false :=
  fallback_ordering (RouterState.mk none) (.ok 100)
    (Operation.mk (some (.error "node down")) (some (.ok 42)) (some (.ok 7)))
    "getBlock" "node down" 42 (.ok 7) rfl rfl rfl

/-- C2 (availability latch): a primary failure inside one execute call latches
the availability flag to false; the flag is one-way (every later modeled step
keeps it false and a false flag makes the call skip the primary thunk), and
every subsequent execute call in the same process leaves the primary thunk
uninvoked. -/
theorem availability_latch {α : Type} (s : RouterState) (probe : ProbeOutcome)
    (op : Operation α) (name : String)
    (rest : List (ProbeOutcome × Operation α × String)) (m : String)
    (hfail : tronwebCallOutcome op = .error m)
    (hatt : (executeWithFallback s probe op name).tronwebAttempted = true) :
    (executeWithFallback s probe op name).state.nodeAvailable = some false ∧
    (∀ (s2 : RouterState) (probe2 : ProbeOutcome) (op2 : Operation α) (name2 : String),
      s2.nodeAvailable = some false →
        (checkNodeAvailability s2 probe2).2.nodeAvailable = some false ∧
        (executeWithFallback s2 probe2 op2 name2).state.nodeAvailable = some false ∧
        (executeWithFallback s2 probe2 op2 name2).tronwebAttempted = false) ∧
    (∀ r2 ∈ runCalls (executeWithFallback s probe op name).state rest,
      r2.tronwebAttempted = false) := by
  have hstate : (executeWithFallback s probe op name).state = ⟨some false⟩ := by
    rw [exec_attempted_of_avail s probe op name hatt]
    exact tryNodeBranch_err _ op name m hfail
  refine ⟨by rw [hstate], ?_, ?_⟩
  · intro s2 probe2 op2 name2 h2
    refine ⟨?_, (exec_flag_false_absorb s2 probe2 op2 name2 h2).1,
      (exec_flag_false_absorb s2 probe2 op2 name2 h2).2⟩
    unfold checkNodeAvailability
    rw [h2]
    exact h2
  · intro r2 hr2
    exact runCalls_skip _ rest (by rw [hstate]) r2 hr2

theorem availability_latch_witness :
    (executeWithFallback (RouterState.mk none) (.ok 100)
        (Operation.mk (α := Nat) (some (.error "timeout")) (some (.ok 1)) none)
        "getBalance").state.nodeAvailable = some false ∧
    ((runCalls (executeWithFallback (RouterState.mk none) (.ok 100)
        (Operation.mk (α := Nat) (some (.error "timeout")) (some (.ok 1)) none)
        "getBalance").state
        [(ProbeOutcome.ok 50, Operation.mk (some (.ok 9)) none none, "getBlock")]).map
      (fun r => r.tronwebAttempted)) = [false] :=
  ⟨(availability_latch (RouterState.mk none) (.ok 100)
      (Operation.mk (some (.error "timeout")) (some (.ok 1)) none) "getBalance"
      [] "timeout" rfl rfl).1, by rfl⟩

/-- C3 counterexample: with primary and gateway supplied and failing and no
explorer candidate, executeWithFallback rethrows the raw primary error; the
gateway failure message "e2" does not occur in the thrown message. -/
theorem aggregate_error_counterexample :
    (executeWithFallback (RouterState.mk (some true)) (.ok 0)
        (Operation.mk (α := Nat) (some (.error "e1")) (some (.error "e2")) none)
        "getBalance").result = .error "getBalance failed: e1" ∧
    ¬ SubstrIn "e2" "getBalance failed: e1" :=
  ⟨rfl, by decide⟩

/-- C3 amended: when the explorer (tronscan) candidate is supplied and every
supplied candidate fails, the call throws and the thrown message contains
every attempted backend's individual failure message as a substring. -/
theorem aggregate_error_completeness {α : Type} (s : RouterState) (probe : ProbeOutcome)
    (op : Operation α) (name m1 m2 m3 : String)
    (h1 : tronwebCallOutcome op = .error m1)
    (h2 : op.trongrid = some (.error m2) ∨ op.trongrid = none)
    (h3 : op.tronscan = some (.error m3)) :
    (∀ (v : α) (src : String), (executeWithFallback s probe op name).result ≠ .ok (v, src)) ∧
    ∀ msg : String, (executeWithFallback s probe op name).result = .error msg →
      ((executeWithFallback s probe op name).tronwebAttempted = true → SubstrIn m1 msg) ∧
      ((executeWithFallback s probe op name).trongridAttempted = true → SubstrIn m2 msg) ∧
      SubstrIn m3 msg := by
  have hmem1 : SubstrIn m1 ("TronWeb: " ++ m1) :=
    substrIn_mono_left _ _ _ (substrIn_refl m1)
  have hmem2 : SubstrIn m2 ("TronGrid: " ++ m2) :=
    substrIn_mono_left _ _ _ (substrIn_refl m2)
  have hmem3 : SubstrIn m3 ("TronScan: " ++ m3) :=
    substrIn_mono_left _ _ _ (substrIn_refl m3)
  by_cases hc : (checkNodeAvailability s probe).1 = false
  · rw [exec_eq_skip s probe op name hc]
    unfold skipNodeBranch
    rcases h2 with h2 | h2 <;> rw [h2, h3] <;>
      refine ⟨by intro v src hv; simp at hv, ?_⟩ <;> intro msg hmsg <;>
      simp only [Except.error.injEq] at hmsg <;> subst hmsg
    · refine ⟨by intro hfalse; simp at hfalse, fun _ => ?_, ?_⟩
      · exact substrIn_mono_left _ _ _ (substrIn_mono_left _ _ _
          (substrIn_trans _ _ _ hmem2 (substrIn_mem_joinComma _ _ (by simp))))
      · exact substrIn_mono_left _ _ _ (substrIn_mono_left _ _ _
          (substrIn_trans _ _ _ hmem3 (substrIn_mem_joinComma _ _ (by simp))))
    · refine ⟨by intro hfalse; simp at hfalse, by intro hfalse; simp at hfalse, ?_⟩
      exact substrIn_mono_left _ _ _ (substrIn_mono_left _ _ _
        (substrIn_trans _ _ _ hmem3 (substrIn_mem_joinComma _ _ (by simp))))
  · rw [exec_eq_try s probe op name (by simpa using hc)]
    unfold tryNodeBranch
    rcases h2 with h2 | h2 <;> rw [h1, h2, h3] <;>
      refine ⟨by intro v src hv; simp at hv, ?_⟩ <;> intro msg hmsg <;>
      simp only [Except.error.injEq] at hmsg <;> subst hmsg
    · refine ⟨fun _ => ?_, fun _ => ?_, ?_⟩
      · exact substrIn_mono_left _ _ _ (substrIn_mono_left _ _ _
          (substrIn_trans _ _ _ hmem1 (substrIn_mem_joinComma _ _ (by simp))))
      · exact substrIn_mono_left _ _ _ (substrIn_mono_left _ _ _
          (substrIn_trans _ _ _ hmem2 (substrIn_mem_joinComma _ _ (by simp))))
      · exact substrIn_mono_left _ _ _ (substrIn_mono_left _ _ _
          (substrIn_trans _ _ _ hmem3 (substrIn_mem_joinComma _ _ (by simp))))
    · refine ⟨fun _ => ?_, by intro hfalse; simp at hfalse, ?_⟩
      · exact substrIn_mono_left _ _ _ (substrIn_mono_left _ _ _
          (substrIn_trans _ _ _ hmem1 (substrIn_mem_joinComma _ _ (by simp))))
      · exact substrIn_mono_left _ _ _ (substrIn_mono_left _ _ _
          (substrIn_trans _ _ _ hmem3 (substrIn_mem_joinComma _ _ (by simp))))

theorem aggregate_error_completeness_witness :
    (executeWithFallback (RouterState.mk (some true)) (.ok 0)
        (Operation.mk (α := Nat) (some (.error "e1")) (some (.error "e2")) (some (.error "e3")))
        "getAccount").result =
      .error "getAccount failed: All sources failed for getAccount: TronWeb: e1, TronGrid: e2, TronScan: e3" ∧
    SubstrIn "e1" "getAccount failed: All sources failed for getAccount: TronWeb: e1, TronGrid: e2, TronScan: e3" ∧
    SubstrIn "e2" "getAccount failed: All sources failed for getAccount: TronWeb: e1, TronGrid: e2, TronScan: e3" ∧
    SubstrIn "e3" "getAccount failed: All sources failed for getAccount: TronWeb: e1, TronGrid: e2, TronScan: e3" := by
  have h := (aggregate_error_completeness (RouterState.mk (some true)) (.ok 0)
    (Operation.mk (α := Nat) (some (.error "e1")) (some (.error "e2")) (some (.error "e3")))
    "getAccount" "e1" "e2" "e3" rfl (Or.inl rfl) rfl).2
    "getAccount failed: All sources failed for getAccount: TronWeb: e1, TronGrid: e2, TronScan: e3"
    rfl
  exact ⟨rfl, h.1 rfl, h.2.1 rfl, h.2.2⟩

/-- C4 counterexample: with the primary estimator failing and the live trongrid
query failing, the energy-estimation operation returns the static-heuristic
estimate, but its accuracy tag is "medium", not "low". -/
theorem estimation_accuracy_counterexample :
    (executeWithFallback (RouterState.mk none) (.ok 100)
        (estimateEnergyOperation "TContractXYZ" "swapExactTokens" ["TAddrA", "1000"]
          (.error "Energy estimator not initialized") (.error "unused")
          (.error "Request failed with status code 503"))
        "estimateContractEnergy").result =
      .ok ({ contractAddress := "TContractXYZ", functionName := "swapExactTokens",
             estimationKey := "fallback",
             estimation :=
               { energy := 50000, method := "predefined", accuracy := "medium",
                 energyCalculation := "fallback_with_address_check" },
             recommended := 50000 }, "trongrid_api") ∧
    ("medium" : String) ≠ "low" :=
  ⟨rfl, by decide⟩

/-- C4 amended: outside the special USDT-transfer branch, when the primary
estimator throws and the live trongrid query throws, the energy-estimation
operation never raises: it returns the static-heuristic estimate under the
"fallback" key, tagged with accuracy "medium". -/
theorem estimation_never_hard_fails (s : RouterState) (probe : ProbeOutcome)
    (contract fn : String) (params : List String) (e a : String)
    (dual : Except String EnergyResult) (name : String)
    (h : ¬(contract = USDT_CONTRACT ∧ fn = "transfer")) :
    (executeWithFallback s probe
        (estimateEnergyOperation contract fn params (.error e) dual (.error a)) name).result =
      .ok ({ contractAddress := contract, functionName := fn, estimationKey := "fallback",
             estimation :=
               { energy := getFallbackEnergyEstimate fn params contract params.head?,
                 method := "predefined", accuracy := "medium",
                 energyCalculation := "fallback_with_address_check" },
             recommended := getFallbackEnergyEstimate fn params contract params.head? },
           "trongrid_api") := by
  have hthunk : trongridEstimateThunk contract fn params dual (.error a) =
      .ok { contractAddress := contract, functionName := fn, estimationKey := "fallback",
            estimation :=
              { energy := getFallbackEnergyEstimate fn params contract params.head?,
                method := "predefined", accuracy := "medium",
                energyCalculation := "fallback_with_address_check" },
            recommended := getFallbackEnergyEstimate fn params contract params.head? } := by
    unfold trongridEstimateThunk displayToAddress
    simp [h]
  by_cases hc : (checkNodeAvailability s probe).1 = false
  · rw [exec_eq_skip s probe _ name hc]
    unfold skipNodeBranch estimateEnergyOperation
    simp only [hthunk]
  · rw [exec_eq_try s probe _ name (by simpa using hc)]
    unfold tryNodeBranch tronwebCallOutcome estimateEnergyOperation
    simp only [hthunk]

theorem estimation_never_hard_fails_witness :
    (executeWithFallback (RouterState.mk (some true)) (.ok 0)
        (estimateEnergyOperation "TC1" "doStuff" ["p"]
          (.error "err1") (.error "x") (.error "err2")) "estimateContractEnergy").result =
      .ok ({ contractAddress := "TC1", functionName := "doStuff", estimationKey := "fallback",
             estimation :=
               { energy := getFallbackEnergyEstimate "doStuff" ["p"] "TC1" (["p"] : List String).head?,
                 method := "predefined", accuracy := "medium",
                 energyCalculation := "fallback_with_address_check" },
             recommended := getFallbackEnergyEstimate "doStuff" ["p"] "TC1" (["p"] : List String).head? },
           "trongrid_api") :=
  estimation_never_hard_fails (RouterState.mk (some true)) (.ok 0) "TC1" "doStuff" ["p"]
    "err1" "x" (.error "x") "estimateContractEnergy" (by decide)

/-- C5 counterexample: the candidate maps built by the write operations sendTrx
and contractCall do supply a tronscan (explorer) candidate, contradicting the
claim that the explorer thunk is omitted entirely. -/
theorem write_ops_explorer_counterexample :
    (sendTrxOperation (α := Nat) (.ok 1) (.ok 2)).tronscan ≠ none ∧
    (contractCallOperation (α := Nat) (.ok 1) (.ok 2)).tronscan ≠ none := by
  constructor <;> simp [sendTrxOperation, contractCallOperation]

/-- C5 amended: the write operations supply an explorer candidate, but it is a
thunk that unconditionally throws a read-only error, so the explorer can never
serve a write: no execute call on these candidate maps ever returns a result
tagged with the explorer source. -/
theorem write_ops_explorer_never_serves {α : Type} (s : RouterState) (probe : ProbeOutcome)
    (o1 o2 : Except String α) (name : String) :
    (sendTrxOperation o1 o2).tronscan =
      some (.error "TronScan API does not support transaction broadcasting - read-only API") ∧
    (contractCallOperation o1 o2).tronscan =
      some (.error "TronScan API does not support contract calls - read-only API") ∧
    (∀ v : α, (executeWithFallback s probe (sendTrxOperation o1 o2) name).result ≠
      .ok (v, "tronscan_api")) ∧
    (∀ v : α, (executeWithFallback s probe (contractCallOperation o1 o2) name).result ≠
      .ok (v, "tronscan_api")) := by
  refine ⟨rfl, rfl, ?_, ?_⟩ <;> intro v hv <;>
    [ (have hts : (sendTrxOperation o1 o2).tronscan =
        some (.error "TronScan API does not support transaction broadcasting - read-only API") := rfl);
      (have hts : (contractCallOperation o1 o2).tronscan =
        some (.error "TronScan API does not support contract calls - read-only API") := rfl) ] <;>
  · by_cases hc : (checkNodeAvailability s probe).1 = false
    · rw [exec_eq_skip s probe _ name hc] at hv
      unfold skipNodeBranch at hv
      rcases hg : Operation.trongrid _ with _ | (mg | vg) <;> rw [hg] at hv <;>
        rw [hts] at hv <;> simp at hv
    · rw [exec_eq_try s probe _ name (by simpa using hc)] at hv
      unfold tryNodeBranch at hv
      rcases hw : tronwebCallOutcome _ with mw | vw <;> rw [hw] at hv <;>
        [ (rcases hg : Operation.trongrid _ with _ | (mg | vg) <;> rw [hg] at hv <;>
            rw [hts] at hv <;> simp at hv);
          simp at hv ]

theorem usdtEstimate_bound (fl : String) (toA : Option String) (e : Nat)
    (h : usdtEstimate fl toA = some e) : 680 ≤ e := by
  unfold usdtEstimate at h
  split_ifs at h <;> simp only [Option.some.injEq] at h
  · rcases toA with _ | a
    · simp only at h
      omega
    · simp only at h
      split_ifs at h <;> omega
  · omega
  · omega
  · omega

theorem patternEstimate_bound (fl : String) (e : Nat) (h : patternEstimate fl = some e) :
    680 ≤ e := by
  unfold patternEstimate at h
  split_ifs at h <;> simp only [Option.some.injEq] at h <;> omega

/-- C6 (heuristic precedence): the fallback estimator consults the known
contract-address table first (USDT transfer pays 28000 to the known new/empty
address and 13940 to the known has-balance address, the former roughly double
the latter; transferFrom pays 18190 there even though its name also matches
the generic transfer pattern), then the function-name substring patterns
(the same transferFrom on any other contract pays the generic 14010), and on
every input matching neither it returns exactly 20000 plus 5000 per
parameter. -/
theorem heuristic_precedence :
    (∀ params : List String,
      getFallbackEnergyEstimate "transfer" params USDT_CONTRACT (some NEW_USDT_ADDRESS) = 28000 ∧
      getFallbackEnergyEstimate "transfer" params USDT_CONTRACT (some EXISTING_USDT_ADDRESS) = 13940) ∧
    (2 * 13940 ≤ 28000 + 200 ∧ 28000 ≤ 2 * 13940 + 200) ∧
    (∀ (params : List String) (toA : Option String),
      getFallbackEnergyEstimate "transferFrom" params USDT_CONTRACT toA = 18190) ∧
    (∀ (params : List String) (toA : Option String) (ca : String), ca ≠ USDT_CONTRACT →
      getFallbackEnergyEstimate "transferFrom" params ca toA = 14010) ∧
    (∀ (fn : String) (params : List String) (ca : String) (toA : Option String),
      (∀ p ∈ (["transfer", "send", "approve", "allowance", "swap", "exchange", "mint",
        "burn", "view", "get", "balance"] : List String), ¬ SubstrIn p (toLowerStr fn)) →
      getFallbackEnergyEstimate fn params ca toA = 20000 + params.length * 5000) := by
  refine ⟨fun params => ⟨rfl, rfl⟩, by omega, fun params toA => rfl, ?_, ?_⟩
  · intro params toA ca hca
    unfold getFallbackEnergyEstimate
    simp only [if_neg hca]
    rfl
  · intro fn params ca toA h
    have hT := h "transfer" (by simp)
    have hS := h "send" (by simp)
    have hA := h "approve" (by simp)
    have hL := h "allowance" (by simp)
    have hW := h "swap" (by simp)
    have hE := h "exchange" (by simp)
    have hM := h "mint" (by simp)
    have hB := h "burn" (by simp)
    have hV := h "view" (by simp)
    have hG := h "get" (by simp)
    have hC := h "balance" (by simp)
    have n1 : toLowerStr fn ≠ "transfer" := fun he => hT (by rw [he]; exact substrIn_refl _)
    have n2 : toLowerStr fn ≠ "approve" := fun he => hA (by rw [he]; exact substrIn_refl _)
    have n3 : toLowerStr fn ≠ "transferfrom" := fun he => hT (by rw [he]; decide)
    have n4 : toLowerStr fn ≠ "balanceof" := fun he => hC (by rw [he]; decide)
    have husdt : ∀ to2 : Option String, usdtEstimate (toLowerStr fn) to2 = none := by
      intro to2
      unfold usdtEstimate
      simp [n1, n2, n3, n4]
    have hpat : patternEstimate (toLowerStr fn) = none := by
      unfold patternEstimate
      unfold strContains
      simp only [decide_eq_false hT, decide_eq_false hS, decide_eq_false hA,
        decide_eq_false hL, decide_eq_false hW, decide_eq_false hE, decide_eq_false hM,
        decide_eq_false hB, decide_eq_false hV, decide_eq_false hG, decide_eq_false hC]
      simp
    unfold getFallbackEnergyEstimate
    by_cases hca : ca = USDT_CONTRACT
    · simp only [if_pos hca, husdt toA, hpat]
    · simp only [if_neg hca, hpat]

theorem heuristic_precedence_witness :
    getFallbackEnergyEstimate "zzz" ["a", "b", "c"] "TCx" none = 35000 ∧
    getFallbackEnergyEstimate "transfer" [] USDT_CONTRACT (some NEW_USDT_ADDRESS) = 28000 := by
  constructor
  · have h := heuristic_precedence.2.2.2.2 "zzz" ["a", "b", "c"] "TCx" none (by decide)
    rw [h]
    norm_num
  · exact (heuristic_precedence.1 []).1

/-- C7 (heuristic purity and totality): the fallback estimator is a pure total
function — on equal inputs it returns the identical integer, and on every
input it returns an integer, in fact one of at least 680 energy units. -/
theorem heuristic_pure_total (fn : String) (params : List String) (ca : String)
    (toA : Option String) :
    getFallbackEnergyEstimate fn params ca toA = getFallbackEnergyEstimate fn params ca toA ∧
    680 ≤ getFallbackEnergyEstimate fn params ca toA := by
  refine ⟨rfl, ?_⟩
  unfold getFallbackEnergyEstimate
  by_cases hca : ca = USDT_CONTRACT
  · simp only [if_pos hca]
    rcases hu : usdtEstimate (toLowerStr fn) toA with _ | e
    · rcases hp : patternEstimate (toLowerStr fn) with _ | e2
      · simp only
        omega
      · simp only
        exact patternEstimate_bound _ _ hp
    · simp only
      exact usdtEstimate_bound _ _ _ hu
  · simp only [if_neg hca]
    rcases hp : patternEstimate (toLowerStr fn) with _ | e2
    · simp only
      omega
    · simp only
      exact patternEstimate_bound _ _ hp

/-- C8 counterexample: getBalance performs no address validation: invoked with
a malformed address it attempts all three backend candidates (count 3, not 0)
and fails only at the end with the aggregate error. -/
theorem invalid_address_counterexample :
    (getBalance "invalid_base58_address"
      ⟨.error "Invalid address provided", .error "Invalid address provided",
       .error "Invalid address provided"⟩).2 = 3 ∧
    (getBalance "invalid_base58_address"
      ⟨.error "Invalid address provided", .error "Invalid address provided",
       .error "Invalid address provided"⟩).1 =
      .error "Failed to get balance: All sources failed: Invalid address provided, Invalid address provided, Invalid address provided" ∧
    (3 : Nat) ≠ 0 :=
  ⟨rfl, rfl, by decide⟩

/-- C8 amended: only the EnergyEstimator detects an invalid contract address
before any network call and fails immediately with zero backend interactions;
AccountModule.getBalance performs no pre-network validation and attempts every
backend candidate when all of them reject the malformed address. -/
theorem invalid_address_handling :
    (∀ (ca : String) (restCalls : Nat) (restOutcome : Except String Nat),
      (estimatorEstimateContractEnergy false ca restCalls restOutcome).2 = 0 ∧
      (estimatorEstimateContractEnergy false ca restCalls restOutcome).1 =
        .error ("Energy estimation failed: " ++ ("Invalid contract address: " ++ ca))) ∧
    (∀ addr m1 m2 m3 : String,
      (getBalance addr ⟨.error m1, .error m2, .error m3⟩).2 = 3) := by
  constructor
  · intro ca restCalls restOutcome
    exact ⟨rfl, rfl⟩
  · intro addr m1 m2 m3
    rfl

/-- C9 (balance conversion): every successful getBalance result's balance
field is the raw SUN integer divided by 1,000,000, multiplying it back by
1,000,000 reproduces the raw integer exactly, and the result carries the
source tag of the backend that answered. -/
theorem balance_conversion (address : String) (sc : BalanceScenario) (r : BalanceResult)
    (h : (getBalance address sc).1 = .ok r) :
    r.balance * 1000000 = (r.balanceInSun : ℚ) ∧
    ((r.source = "tronweb_node" ∧ sc.tronwebOutcome = .ok r.balanceInSun) ∨
     (r.source = "trongrid_api" ∧ ∃ a, sc.trongridOutcome = .ok a ∧ r.balanceInSun = a.getD 0) ∨
     (r.source = "tronscan_api" ∧ ∃ a, sc.tronscanOutcome = .ok a ∧ r.balanceInSun = a.getD 0)) := by
  unfold getBalance at h
  rcases hw : sc.tronwebOutcome with m1 | sun <;> rw [hw] at h
  · rcases hg : sc.trongridOutcome with m2 | acc <;> rw [hg] at h
    · rcases hs : sc.tronscanOutcome with m3 | acc2 <;> rw [hs] at h
      · simp at h
      · simp only [Except.ok.injEq] at h
        subst h
        refine ⟨div_mul_cancel₀ _ (by norm_num), ?_⟩
        exact Or.inr (Or.inr ⟨rfl, acc2, rfl, rfl⟩)
    · simp only [Except.ok.injEq] at h
      subst h
      refine ⟨div_mul_cancel₀ _ (by norm_num), ?_⟩
      exact Or.inr (Or.inl ⟨rfl, acc, rfl, rfl⟩)
  · simp only [Except.ok.injEq] at h
    subst h
    refine ⟨div_mul_cancel₀ _ (by norm_num), ?_⟩
    exact Or.inl ⟨rfl, rfl⟩

theorem balance_conversion_witness :
    (BalanceResult.mk "TAddr" ((123456789 : ℚ) / 1000000) 123456789 "tronweb_node").balance
        * 1000000 =
      ((BalanceResult.mk "TAddr" ((123456789 : ℚ) / 1000000) 123456789
        "tronweb_node").balanceInSun : ℚ) :=
  (balance_conversion "TAddr" ⟨.ok 123456789, .error "x", .error "y"⟩
    (BalanceResult.mk "TAddr" ((123456789 : ℚ) / 1000000) 123456789 "tronweb_node") rfl).1

/-- C10 counterexample: with the availability flag unknown (not false) and a
failing probe, an execute call whose candidate map has no primary thunk does
not attempt the missing primary at all: no TypeError is raised or recorded. -/
theorem missing_primary_counterexample :
    (RouterState.mk none).nodeAvailable ≠ some false ∧
    (executeWithFallback (RouterState.mk none) (.err "connect ECONNREFUSED")
        (Operation.mk (α := Nat) none (some (.ok 7)) none) "getBlock").tronwebAttempted = false ∧
    (executeWithFallback (RouterState.mk none) (.err "connect ECONNREFUSED")
        (Operation.mk (α := Nat) none (some (.ok 7)) none) "getBlock").sources = [] :=
  ⟨by decide, rfl, rfl⟩

/-- C10 amended: on every execute call in which the availability check returns
true, a candidate map without a primary thunk still has its primary slot
invoked; the resulting TypeError is caught and recorded as the TronWeb failure
message and the availability latch is set to false. -/
theorem missing_primary_typeerror {α : Type} (s : RouterState) (probe : ProbeOutcome)
    (op : Operation α) (name : String)
    (hc : (checkNodeAvailability s probe).1 = true) (hnone : op.tronweb = none) :
    (executeWithFallback s probe op name).tronwebAttempted = true ∧
    (executeWithFallback s probe op name).state.nodeAvailable = some false ∧
    (executeWithFallback s probe op name).sources.head? =
      some ("TronWeb: " ++ "operation.tronweb is not a function") := by
  have hout : tronwebCallOutcome op = .error "operation.tronweb is not a function" := by
    unfold tronwebCallOutcome
    rw [hnone]
  rw [exec_eq_try s probe op name hc]
  unfold tryNodeBranch
  rw [hout]
  rcases hg : op.trongrid with _ | (mg | vg) <;>
    rcases hs : op.tronscan with _ | (ms | vs) <;> simp

theorem missing_primary_typeerror_witness :
    (executeWithFallback (RouterState.mk (some true)) (.ok 0)
        (Operation.mk (α := Nat) none (some (.ok 5)) none) "getBlock").tronwebAttempted = true ∧
    (executeWithFallback (RouterState.mk (some true)) (.ok 0)
        (Operation.mk (α := Nat) none (some (.ok 5)) none) "getBlock").state.nodeAvailable =
      some false ∧
    (executeWithFallback (RouterState.mk (some true)) (.ok 0)
        (Operation.mk (α := Nat) none (some (.ok 5)) none) "getBlock").sources.head? =
      some ("TronWeb: " ++ "operation.tronweb is not a function") :=
  missing_primary_typeerror (RouterState.mk (some true)) (.ok 0)
    (Operation.mk (α := Nat) none (some (.ok 5)) none) "getBlock" rfl rfl

end TronMcp
